import Mathlib

/-
  Verification of the Tutorial03_Texturing sample
  (src/Tutorial03_Texturing.hpp, namespace Diligent).

  Modelling choices:
  * float4x4 (Diligent BasicMath.hpp) is modelled as a 4x4 matrix over the
    real numbers; the row-major, row-vector conventions of BasicMath.hpp are
    kept: Translation stores the offset in the fourth row, RotationX/RotationY
    follow the D3D-style layout, and operator* is ordinary matrix product.
  * The class state (the fifteen float4x4 members m_WorldViewProjMatrix and
    m_WorldViewProjMatrix1 .. m_WorldViewProjMatrix14) is a structure.
  * Update(CurrTime, ElapsedTime) is a pure function of the state; the two
    matrices it obtains from the engine (GetSurfacePretransformMatrix and
    GetAdjustedProjectionMatrix) are passed as parameters.
  * Render is modelled as the trace of engine calls it issues, in order.
-/

set_option linter.unusedVariables false

namespace Tutorial03

/-- Diligent float4x4, modelled over the real numbers. -/
abbrev float4x4 := Matrix (Fin 4) (Fin 4) ℝ

/-- PI_F from BasicMath.hpp. -/
noncomputable def PI_F : ℝ := Real.pi

/-- float4x4::RotationY from BasicMath.hpp (row-major, row-vector convention). -/
noncomputable def RotationY (angleInRadians : ℝ) : float4x4 :=
  let s := Real.sin angleInRadians
  let c := Real.cos angleInRadians
  !![  c, 0, -s, 0;
       0, 1,  0, 0;
       s, 0,  c, 0;
       0, 0,  0, 1]

/-- float4x4::RotationX from BasicMath.hpp (row-major, row-vector convention). -/
noncomputable def RotationX (angleInRadians : ℝ) : float4x4 :=
  let s := Real.sin angleInRadians
  let c := Real.cos angleInRadians
  !![  1, 0, 0, 0;
       0, c, s, 0;
       0, -s, c, 0;
       0, 0, 0, 1]

/-- float4x4::Translation from BasicMath.hpp: offset in the fourth row. -/
noncomputable def Translation (x y z : ℝ) : float4x4 :=
  !![  1, 0, 0, 0;
       0, 1, 0, 0;
       0, 0, 1, 0;
       x, y, z, 1]

/-- float4x4::Scale from BasicMath.hpp: diagonal scale factors. -/
noncomputable def Scale (x y z : ℝ) : float4x4 :=
  !![  x, 0, 0, 0;
       0, y, 0, 0;
       0, 0, z, 0;
       0, 0, 0, 1]

/-- The float4x4 members of class Tutorial03_Texturing
    (src/Tutorial03_Texturing.hpp lines 31-45). -/
structure Tutorial03_Texturing where
  m_WorldViewProjMatrix   : float4x4
  m_WorldViewProjMatrix1  : float4x4
  m_WorldViewProjMatrix2  : float4x4
  m_WorldViewProjMatrix3  : float4x4
  m_WorldViewProjMatrix4  : float4x4
  m_WorldViewProjMatrix5  : float4x4
  m_WorldViewProjMatrix6  : float4x4
  m_WorldViewProjMatrix7  : float4x4
  m_WorldViewProjMatrix8  : float4x4
  m_WorldViewProjMatrix9  : float4x4
  m_WorldViewProjMatrix10 : float4x4
  m_WorldViewProjMatrix11 : float4x4
  m_WorldViewProjMatrix12 : float4x4
  m_WorldViewProjMatrix13 : float4x4
  m_WorldViewProjMatrix14 : float4x4

/-- The list of all named world-view-projection matrix members of the class,
    in declaration order (lines 31-45). -/
noncomputable def wvpMatrices (s : Tutorial03_Texturing) : List float4x4 :=
  [s.m_WorldViewProjMatrix,
   s.m_WorldViewProjMatrix1, s.m_WorldViewProjMatrix2, s.m_WorldViewProjMatrix3,
   s.m_WorldViewProjMatrix4, s.m_WorldViewProjMatrix5, s.m_WorldViewProjMatrix6,
   s.m_WorldViewProjMatrix7, s.m_WorldViewProjMatrix8, s.m_WorldViewProjMatrix9,
   s.m_WorldViewProjMatrix10, s.m_WorldViewProjMatrix11, s.m_WorldViewProjMatrix12,
   s.m_WorldViewProjMatrix13, s.m_WorldViewProjMatrix14]

/- ----------------------------------------------------------------
   Update (src/Tutorial03_Texturing.hpp lines 372-461).
   The local model-transform variables of Update become functions of
   CurrTime; a C++ variable that is reassigned is given one definition
   per final value.
   ---------------------------------------------------------------- -/

/-- Line 377: rotation of the central cube. -/
noncomputable def Cube1ModelTransform (CurrTime : ℝ) : float4x4 :=
  RotationY (CurrTime * 1.0) * RotationX (-PI_F * 0.1)

/-- Line 379: initial value of Cube8ModelTransform (before line 400). -/
noncomputable def Cube8RotationPart (CurrTime : ℝ) : float4x4 :=
  RotationY (CurrTime * -0.50) * RotationX (-PI_F * 0.1)

/-- Line 381: rotationSpeed (declared, never used afterwards). -/
noncomputable def rotationSpeed : ℝ := 1.0

/-- Line 382: Cube4Rotation (declared, never used afterwards). -/
noncomputable def Cube4Rotation (CurrTime : ℝ) : float4x4 :=
  RotationY (CurrTime * 1.0)

/-- Line 383: Cube8Rotation (declared, never used afterwards). -/
noncomputable def Cube8Rotation (CurrTime : ℝ) : float4x4 :=
  RotationY (CurrTime * 1.0)

/-- Lines 387 and 393: final value of Cube2ModelTransform. -/
noncomputable def Cube2ModelTransform (CurrTime : ℝ) : float4x4 :=
  Translation 3.0 0.0 0.0 * Cube1ModelTransform CurrTime

/-- Lines 388 and 394: final value of Cube3ModelTransform. -/
noncomputable def Cube3ModelTransform (CurrTime : ℝ) : float4x4 :=
  Translation (-3.0) 0.0 0.0 * Cube1ModelTransform CurrTime

/-- Lines 389 and 395: final value of Cube4ModelTransform. -/
noncomputable def Cube4ModelTransform (CurrTime : ℝ) : float4x4 :=
  Translation 3.0 (-3.0) 0.0 * Cube1ModelTransform CurrTime

/-- Lines 390 and 396: final value of Cube5ModelTransform. -/
noncomputable def Cube5ModelTransform (CurrTime : ℝ) : float4x4 :=
  Translation (-3.0) (-4.0) 0.0 * Cube1ModelTransform CurrTime

/-- Lines 379 and 400: final value of Cube8ModelTransform. -/
noncomputable def Cube8ModelTransform (CurrTime : ℝ) : float4x4 :=
  Translation 0.0 5.0 0.0 * Cube8RotationPart CurrTime

/-- Lines 403-405: final value of CubeLineModelTransform. -/
noncomputable def CubeLineModelTransform (CurrTime : ℝ) : float4x4 :=
  Translation 0.0 1.0 0.0 * (Scale 0.1 2.0 0.1 * Cube1ModelTransform CurrTime)

/-- Lines 408-410: final value of CubeLine23ModelTransform. -/
noncomputable def CubeLine23ModelTransform (CurrTime : ℝ) : float4x4 :=
  Translation 0.0 0.0 0.0 * (Scale 4.0 0.1 0.1 * Cube1ModelTransform CurrTime)

/-- Lines 413-415: final value of CubeLine24ModelTransform. -/
noncomputable def CubeLine24ModelTransform (CurrTime : ℝ) : float4x4 :=
  Translation 30.0 (-1.0) 0.0 * (Scale 0.1 2.0 0.1 * Cube1ModelTransform CurrTime)

/-- Lines 418-420: final value of CubeLine35ModelTransform. -/
noncomputable def CubeLine35ModelTransform (CurrTime : ℝ) : float4x4 :=
  Translation (-30.0) (-1.0) 0.0 * (Scale 0.1 2.0 0.1 * Cube1ModelTransform CurrTime)

/-- Line 423: orbitRadius. -/
noncomputable def orbitRadius : ℝ := 1.0

/-- Line 424: orbitSpeed. -/
noncomputable def orbitSpeed : ℝ := 0.3

/-- Line 427: localRotationSpeed. -/
noncomputable def localRotationSpeed : ℝ := 0.5

/-- Line 428: Cube6LocalRotation. -/
noncomputable def Cube6LocalRotation (CurrTime : ℝ) : float4x4 :=
  RotationY (CurrTime * localRotationSpeed)

/-- Line 429: Cube7LocalRotation. -/
noncomputable def Cube7LocalRotation (CurrTime : ℝ) : float4x4 :=
  RotationY (CurrTime * localRotationSpeed)

/-- Line 432: Cube6OrbitTransform. -/
noncomputable def Cube6OrbitTransform (CurrTime : ℝ) : float4x4 :=
  RotationY (CurrTime * orbitSpeed) * Translation orbitRadius 0.0 0.0

/-- Line 433: Cube6ModelTransform. -/
noncomputable def Cube6ModelTransform (CurrTime : ℝ) : float4x4 :=
  Cube5ModelTransform CurrTime * Cube6OrbitTransform CurrTime *
    Cube6LocalRotation CurrTime * Cube4ModelTransform CurrTime

/-- Line 436: Cube7OrbitTransform. -/
noncomputable def Cube7OrbitTransform (CurrTime : ℝ) : float4x4 :=
  RotationY (CurrTime * orbitSpeed + PI_F) * Translation orbitRadius 0.0 0.0

/-- Line 437: Cube7ModelTransform. -/
noncomputable def Cube7ModelTransform (CurrTime : ℝ) : float4x4 :=
  Cube5ModelTransform CurrTime * Cube7OrbitTransform CurrTime *
    Cube7LocalRotation CurrTime * Cube4ModelTransform CurrTime

/-- Line 440: the View matrix. -/
noncomputable def View : float4x4 := Translation 0.0 1.0 30.0

/-- Tutorial03_Texturing::Update (lines 372-461).  CurrTime and ElapsedTime
    are the arguments; SrfPreTransform and Proj stand for the matrices the
    engine returns at lines 443 and 446.  Lines 449-460 assign the members
    m_WorldViewProjMatrix1 .. m_WorldViewProjMatrix12; every other member is
    untouched. -/
noncomputable def Update (CurrTime ElapsedTime : ℝ) (SrfPreTransform Proj : float4x4)
    (s : Tutorial03_Texturing) : Tutorial03_Texturing :=
  { s with
    m_WorldViewProjMatrix1  := Cube1ModelTransform CurrTime * View * SrfPreTransform * Proj
    m_WorldViewProjMatrix2  := Cube2ModelTransform CurrTime * View * SrfPreTransform * Proj
    m_WorldViewProjMatrix3  := Cube3ModelTransform CurrTime * View * SrfPreTransform * Proj
    m_WorldViewProjMatrix4  := Cube4ModelTransform CurrTime * View * SrfPreTransform * Proj
    m_WorldViewProjMatrix5  := Cube5ModelTransform CurrTime * View * SrfPreTransform * Proj
    m_WorldViewProjMatrix6  := Cube6ModelTransform CurrTime * View * SrfPreTransform * Proj
    m_WorldViewProjMatrix7  := Cube7ModelTransform CurrTime * View * SrfPreTransform * Proj
    m_WorldViewProjMatrix8  := Cube8ModelTransform CurrTime * View * SrfPreTransform * Proj
    m_WorldViewProjMatrix9  := CubeLineModelTransform CurrTime * View * SrfPreTransform * Proj
    m_WorldViewProjMatrix10 := CubeLine23ModelTransform CurrTime * View * SrfPreTransform * Proj
    m_WorldViewProjMatrix11 := CubeLine24ModelTransform CurrTime * View * SrfPreTransform * Proj
    m_WorldViewProjMatrix12 := CubeLine35ModelTransform CurrTime * View * SrfPreTransform * Proj }

/- ----------------------------------------------------------------
   Render (src/Tutorial03_Texturing.hpp lines 317-370), modelled as the
   ordered trace of engine calls issued by one call to Render.
   ---------------------------------------------------------------- -/

/-- One engine call issued by Render, in the order of lines 317-370.
    mapWriteConstants is the MapHelper write of the uniform buffer
    m_VSConstants (lines 343-344); drawIndexed carries NumIndices. -/
inductive RenderEvent where
  | clearRenderTarget : RenderEvent
  | clearDepthStencil : RenderEvent
  | setVertexBuffers : RenderEvent
  | setIndexBuffer : RenderEvent
  | setPipelineState : RenderEvent
  | mapWriteConstants : float4x4 → RenderEvent
  | commitShaderResources : RenderEvent
  | drawIndexed : Nat → RenderEvent

/-- The DrawCube lambda (lines 341-355): write the matrix into the uniform
    buffer, commit shader resources, issue one indexed draw of 36 indices. -/
noncomputable def DrawCube (WorldViewProjMatrix : float4x4) : List RenderEvent :=
  [RenderEvent.mapWriteConstants WorldViewProjMatrix,
   RenderEvent.commitShaderResources,
   RenderEvent.drawIndexed 36]

/-- The matrices passed to DrawCube, in call order (lines 358-369). -/
noncomputable def drawnMatrices (s : Tutorial03_Texturing) : List float4x4 :=
  [s.m_WorldViewProjMatrix1, s.m_WorldViewProjMatrix2, s.m_WorldViewProjMatrix3,
   s.m_WorldViewProjMatrix4, s.m_WorldViewProjMatrix5, s.m_WorldViewProjMatrix6,
   s.m_WorldViewProjMatrix7, s.m_WorldViewProjMatrix8, s.m_WorldViewProjMatrix9,
   s.m_WorldViewProjMatrix10, s.m_WorldViewProjMatrix11, s.m_WorldViewProjMatrix12]

/-- Tutorial03_Texturing::Render (lines 317-370): clears, buffer and pipeline
    binding, then the twelve DrawCube calls.  Render writes no class member,
    so it is a function of the state to the call trace. -/
noncomputable def Render (s : Tutorial03_Texturing) : List RenderEvent :=
  [RenderEvent.clearRenderTarget, RenderEvent.clearDepthStencil,
   RenderEvent.setVertexBuffers, RenderEvent.setIndexBuffer,
   RenderEvent.setPipelineState]
  ++ (drawnMatrices s).flatMap DrawCube

/-- Recognizes an indexed draw call in the trace. -/
def isDrawCall : RenderEvent → Bool
  | RenderEvent.drawIndexed _ => true
  | _ => false

/-- Recognizes an access (write or consuming draw) to the shared uniform
    buffer m_VSConstants. -/
def isUniformBufferAccess : RenderEvent → Bool
  | RenderEvent.mapWriteConstants _ => true
  | RenderEvent.drawIndexed _ => true
  | _ => false

/- ----------------------------------------------------------------
   Geometry (CreateVertexBuffer lines 195-265, CreateIndexBuffer
   lines 267-290).  All coordinates in the source are small integers,
   so Int models the float fields exactly.
   ---------------------------------------------------------------- -/

/-- The Vertex structure of CreateVertexBuffer (lines 198-202):
    a position (float3) and a texture coordinate (float2). -/
structure Vertex where
  pos : Int × Int × Int
  uv  : Int × Int
deriving DecidableEq

/-- CubeVerts (lines 223-254): the 24 vertices uploaded to the vertex
    buffer, in order. -/
def CubeVerts : List Vertex :=
  [⟨(-1, -1, -1), (0, 1)⟩, ⟨(-1, 1, -1), (0, 0)⟩, ⟨(1, 1, -1), (1, 0)⟩, ⟨(1, -1, -1), (1, 1)⟩,
   ⟨(-1, -1, -1), (0, 1)⟩, ⟨(-1, -1, 1), (0, 0)⟩, ⟨(1, -1, 1), (1, 0)⟩, ⟨(1, -1, -1), (1, 1)⟩,
   ⟨(1, -1, -1), (0, 1)⟩, ⟨(1, -1, 1), (1, 1)⟩, ⟨(1, 1, 1), (1, 0)⟩, ⟨(1, 1, -1), (0, 0)⟩,
   ⟨(1, 1, -1), (0, 1)⟩, ⟨(1, 1, 1), (0, 0)⟩, ⟨(-1, 1, 1), (1, 0)⟩, ⟨(-1, 1, -1), (1, 1)⟩,
   ⟨(-1, 1, -1), (1, 0)⟩, ⟨(-1, 1, 1), (0, 0)⟩, ⟨(-1, -1, 1), (0, 1)⟩, ⟨(-1, -1, -1), (1, 1)⟩,
   ⟨(-1, -1, 1), (1, 1)⟩, ⟨(1, -1, 1), (0, 1)⟩, ⟨(1, 1, 1), (0, 0)⟩, ⟨(-1, 1, 1), (1, 0)⟩]

/-- Indices (lines 270-278): the 36 indices uploaded to the index buffer. -/
def Indices : List Nat :=
  [2, 0, 1,    2, 3, 0,
   4, 6, 5,    4, 7, 6,
   8, 10, 9,   8, 11, 10,
   12, 14, 13, 12, 15, 14,
   16, 18, 17, 16, 19, 18,
   20, 21, 22, 20, 22, 23]

/- ----------------------------------------------------------------
   Pipeline resource layout (CreatePipelineState lines 64-193).
   ---------------------------------------------------------------- -/

/-- Shader stages used by the sample (SHADER_TYPE_VERTEX / SHADER_TYPE_PIXEL). -/
inductive SHADER_TYPE where
  | VERTEX : SHADER_TYPE
  | PIXEL : SHADER_TYPE
deriving DecidableEq

/-- Shader resource variable types (SHADER_RESOURCE_VARIABLE_TYPE_*). -/
inductive SHADER_RESOURCE_VARIABLE_TYPE where
  | STATIC : SHADER_RESOURCE_VARIABLE_TYPE
  | MUTABLE : SHADER_RESOURCE_VARIABLE_TYPE
  | DYNAMIC : SHADER_RESOURCE_VARIABLE_TYPE
deriving DecidableEq

/-- ShaderResourceVariableDesc (the C++ field Type is named VariableType
    here because Type is a Lean keyword). -/
structure ShaderResourceVariableDesc where
  ShaderStages : SHADER_TYPE
  Name : String
  VariableType : SHADER_RESOURCE_VARIABLE_TYPE
deriving DecidableEq

/-- Line 155: PSOCreateInfo.PSODesc.ResourceLayout.DefaultVariableType. -/
def DefaultVariableType : SHADER_RESOURCE_VARIABLE_TYPE :=
  SHADER_RESOURCE_VARIABLE_TYPE.STATIC

/-- Lines 160-166: the Vars array assigned to
    PSOCreateInfo.PSODesc.ResourceLayout.Variables (NumVariables = 1). -/
def ResourceLayoutVariables : List ShaderResourceVariableDesc :=
  [⟨SHADER_TYPE.PIXEL, "g_Texture", SHADER_RESOURCE_VARIABLE_TYPE.MUTABLE⟩]

/-- Line 188: the one static-variable binding made directly on the pipeline
    state object: GetStaticVariableByName(SHADER_TYPE_VERTEX, "Constants")
    followed by Set(m_VSConstants). -/
def StaticVariableBindings : List (SHADER_TYPE × String) :=
  [(SHADER_TYPE.VERTEX, "Constants")]

/- ----------------------------------------------------------------
   Auxiliary definitions for the claims.
   ---------------------------------------------------------------- -/

/-- Modelled from the spec: section 4 declares right-to-left application of
    composed transform matrices.  The vertex shader (cube.vsh) that consumes
    the composed matrix is an external asset file not present under src/, so
    the action of a float4x4 on a vertex is modelled from the spec as
    matrix-times-column-vector, under which the right factor of a product
    acts first. -/
noncomputable def applyTransform (M : float4x4) (v : Fin 4 → ℝ) : Fin 4 → ℝ :=
  M.mulVec v

/-- Concrete state whose matrix members are all zero. -/
noncomputable def zeroState : Tutorial03_Texturing :=
  ⟨0, 0, 0, 0, 0, 0, 0, 0, 0, 0, 0, 0, 0, 0, 0⟩

/-- State s with the three members never written by Update replaced. -/
noncomputable def setUnwrittenMatrices (s : Tutorial03_Texturing)
    (a b c : float4x4) : Tutorial03_Texturing :=
  { s with
    m_WorldViewProjMatrix := a
    m_WorldViewProjMatrix13 := b
    m_WorldViewProjMatrix14 := c }

/- ----------------------------------------------------------------
   Claims.
   ---------------------------------------------------------------- -/

/-- C1 (counterexample): the class holds fifteen named world-view-projection
    matrix members, not fourteen, and Update does not recompute
    m_WorldViewProjMatrix13: at CurrTime = 0 with identity pretransform and
    projection, Update leaves it at its prior value, and two states that
    differ in that member still differ after Update, so it is not recomputed
    from the time-based formulas. -/
theorem C1_counterexample :
    (wvpMatrices zeroState).length ≠ 14 ∧
    (Update 0 0 1 1 zeroState).m_WorldViewProjMatrix13 =
      zeroState.m_WorldViewProjMatrix13 ∧
    (Update 0 0 1 1 (setUnwrittenMatrices zeroState 0 1 0)).m_WorldViewProjMatrix13 ≠
      (Update 0 0 1 1 zeroState).m_WorldViewProjMatrix13 := by
  refine ⟨by decide, rfl, ?_⟩
  show (1 : float4x4) ≠ (0 : float4x4)
  intro h
  have h00 : (1 : float4x4) 0 0 = (0 : float4x4) 0 0 := by rw [h]
  simp [Matrix.one_apply] at h00

/-- C1 (amended): the sample holds fifteen named 4x4 world-view-projection
    matrix members (one unnumbered plus fourteen numbered); on every call to
    Update exactly the twelve numbered 1 through 12 are recomputed from the
    time-based rotation, translation, scale, and orbit formulas, while the
    unnumbered member and the members numbered 13 and 14 are left
    unchanged. -/
theorem C1_amended_fifteen_members_twelve_recomputed
    (CurrTime ElapsedTime : ℝ) (SrfPreTransform Proj : float4x4)
    (s : Tutorial03_Texturing) :
    (wvpMatrices s).length = 15 ∧
    drawnMatrices (Update CurrTime ElapsedTime SrfPreTransform Proj s) =
      [Cube1ModelTransform CurrTime * View * SrfPreTransform * Proj,
       Cube2ModelTransform CurrTime * View * SrfPreTransform * Proj,
       Cube3ModelTransform CurrTime * View * SrfPreTransform * Proj,
       Cube4ModelTransform CurrTime * View * SrfPreTransform * Proj,
       Cube5ModelTransform CurrTime * View * SrfPreTransform * Proj,
       Cube6ModelTransform CurrTime * View * SrfPreTransform * Proj,
       Cube7ModelTransform CurrTime * View * SrfPreTransform * Proj,
       Cube8ModelTransform CurrTime * View * SrfPreTransform * Proj,
       CubeLineModelTransform CurrTime * View * SrfPreTransform * Proj,
       CubeLine23ModelTransform CurrTime * View * SrfPreTransform * Proj,
       CubeLine24ModelTransform CurrTime * View * SrfPreTransform * Proj,
       CubeLine35ModelTransform CurrTime * View * SrfPreTransform * Proj] ∧
    (Update CurrTime ElapsedTime SrfPreTransform Proj s).m_WorldViewProjMatrix =
      s.m_WorldViewProjMatrix ∧
    (Update CurrTime ElapsedTime SrfPreTransform Proj s).m_WorldViewProjMatrix13 =
      s.m_WorldViewProjMatrix13 ∧
    (Update CurrTime ElapsedTime SrfPreTransform Proj s).m_WorldViewProjMatrix14 =
      s.m_WorldViewProjMatrix14 :=
  ⟨rfl, rfl, rfl, rfl, rfl⟩

/-- C2: on every call to Render, the number of indexed draw calls issued
    equals the fixed object count of the scene (the twelve cubes whose
    matrices are passed to DrawCube), with exactly one indexed draw call per
    object. -/
theorem C2_one_draw_call_per_object (s : Tutorial03_Texturing) :
    ((Render s).filter isDrawCall).length = (drawnMatrices s).length ∧
    (drawnMatrices s).length = 12 ∧
    (Render s).filter isDrawCall =
      (drawnMatrices s).map (fun _ => RenderEvent.drawIndexed 36) :=
  ⟨rfl, rfl, rfl⟩

/-- C3: after Update(CurrTime, ElapsedTime), each stored world-view-projection
    matrix of a drawn cube equals that cube's model transform multiplied on
    the right by the view matrix, the surface pretransform matrix, and the
    projection matrix, in that order. -/
theorem C3_stored_wvp_is_model_view_pretransform_proj
    (CurrTime ElapsedTime : ℝ) (SrfPreTransform Proj : float4x4)
    (s : Tutorial03_Texturing) :
    (Update CurrTime ElapsedTime SrfPreTransform Proj s).m_WorldViewProjMatrix1 =
      Cube1ModelTransform CurrTime * View * SrfPreTransform * Proj ∧
    (Update CurrTime ElapsedTime SrfPreTransform Proj s).m_WorldViewProjMatrix2 =
      Cube2ModelTransform CurrTime * View * SrfPreTransform * Proj ∧
    (Update CurrTime ElapsedTime SrfPreTransform Proj s).m_WorldViewProjMatrix3 =
      Cube3ModelTransform CurrTime * View * SrfPreTransform * Proj ∧
    (Update CurrTime ElapsedTime SrfPreTransform Proj s).m_WorldViewProjMatrix4 =
      Cube4ModelTransform CurrTime * View * SrfPreTransform * Proj ∧
    (Update CurrTime ElapsedTime SrfPreTransform Proj s).m_WorldViewProjMatrix5 =
      Cube5ModelTransform CurrTime * View * SrfPreTransform * Proj ∧
    (Update CurrTime ElapsedTime SrfPreTransform Proj s).m_WorldViewProjMatrix6 =
      Cube6ModelTransform CurrTime * View * SrfPreTransform * Proj ∧
    (Update CurrTime ElapsedTime SrfPreTransform Proj s).m_WorldViewProjMatrix7 =
      Cube7ModelTransform CurrTime * View * SrfPreTransform * Proj ∧
    (Update CurrTime ElapsedTime SrfPreTransform Proj s).m_WorldViewProjMatrix8 =
      Cube8ModelTransform CurrTime * View * SrfPreTransform * Proj ∧
    (Update CurrTime ElapsedTime SrfPreTransform Proj s).m_WorldViewProjMatrix9 =
      CubeLineModelTransform CurrTime * View * SrfPreTransform * Proj ∧
    (Update CurrTime ElapsedTime SrfPreTransform Proj s).m_WorldViewProjMatrix10 =
      CubeLine23ModelTransform CurrTime * View * SrfPreTransform * Proj ∧
    (Update CurrTime ElapsedTime SrfPreTransform Proj s).m_WorldViewProjMatrix11 =
      CubeLine24ModelTransform CurrTime * View * SrfPreTransform * Proj ∧
    (Update CurrTime ElapsedTime SrfPreTransform Proj s).m_WorldViewProjMatrix12 =
      CubeLine35ModelTransform CurrTime * View * SrfPreTransform * Proj :=
  ⟨rfl, rfl, rfl, rfl, rfl, rfl, rfl, rfl, rfl, rfl, rfl, rfl⟩

/-- C4: Update is deterministic in its time input: two calls with the same
    CurrTime, surface pretransform, and projection matrices produce equal
    values in all twelve per-object world-view-projection matrices, whatever
    the prior state and the ElapsedTime argument, and those values equal the
    recomputation from the model-view-projection formulas. -/
theorem C4_update_deterministic
    (CurrTime ElapsedTime ElapsedTime2 : ℝ) (SrfPreTransform Proj : float4x4)
    (s s2 : Tutorial03_Texturing) :
    drawnMatrices (Update CurrTime ElapsedTime SrfPreTransform Proj s) =
      drawnMatrices (Update CurrTime ElapsedTime2 SrfPreTransform Proj s2) ∧
    drawnMatrices
        (Update CurrTime ElapsedTime SrfPreTransform Proj
          (Update CurrTime ElapsedTime SrfPreTransform Proj s)) =
      drawnMatrices (Update CurrTime ElapsedTime SrfPreTransform Proj s) ∧
    (Update CurrTime ElapsedTime SrfPreTransform Proj s).m_WorldViewProjMatrix1 =
      Cube1ModelTransform CurrTime * View * SrfPreTransform * Proj :=
  ⟨rfl, rfl, rfl⟩

/-- C5: each offset cube (2, 3, 4, 5, and 8) has a model transform of the
    form Translation(fixed offset) * R with R a time-based rotation; the
    rotation factor of cubes 2-5 is exactly the central cube's rotation
    Cube1ModelTransform; and under the spec's right-to-left application the
    rotation acts on a vertex first and the fixed offset placement after
    it. -/
theorem C5_offset_cubes_translation_times_rotation (CurrTime : ℝ) (v : Fin 4 → ℝ) :
    Cube2ModelTransform CurrTime =
      Translation 3.0 0.0 0.0 * Cube1ModelTransform CurrTime ∧
    Cube3ModelTransform CurrTime =
      Translation (-3.0) 0.0 0.0 * Cube1ModelTransform CurrTime ∧
    Cube4ModelTransform CurrTime =
      Translation 3.0 (-3.0) 0.0 * Cube1ModelTransform CurrTime ∧
    Cube5ModelTransform CurrTime =
      Translation (-3.0) (-4.0) 0.0 * Cube1ModelTransform CurrTime ∧
    Cube8ModelTransform CurrTime =
      Translation 0.0 5.0 0.0 * Cube8RotationPart CurrTime ∧
    Cube1ModelTransform CurrTime =
      RotationY (CurrTime * 1.0) * RotationX (-PI_F * 0.1) ∧
    Cube8RotationPart CurrTime =
      RotationY (CurrTime * -0.50) * RotationX (-PI_F * 0.1) ∧
    ∀ (T R : float4x4),
      applyTransform (T * R) v = applyTransform T (applyTransform R v) := by
  refine ⟨rfl, rfl, rfl, rfl, rfl, rfl, rfl, fun T R => ?_⟩
  exact (Matrix.mulVec_mulVec v T R).symm

/-- C6: among the accesses to the shared uniform buffer during Render, the
    writes and the draws strictly alternate starting with a write: the
    buffer is overwritten exactly once per draw call, immediately before the
    draw that consumes it, and the value written before the i-th draw is the
    i-th object's world-view-projection matrix. -/
theorem C6_uniform_buffer_written_once_per_draw (s : Tutorial03_Texturing) :
    (Render s).filter isUniformBufferAccess =
      (drawnMatrices s).flatMap
        (fun m => [RenderEvent.mapWriteConstants m, RenderEvent.drawIndexed 36]) :=
  rfl

/-- C7: the vertex buffer holds exactly 24 vertices (each a position plus a
    UV coordinate), the index buffer holds exactly 36 indices describing 12
    triangles, and every per-cube draw call issued by Render uses exactly
    that index count of 36. -/
theorem C7_geometry_counts (s : Tutorial03_Texturing) :
    CubeVerts.length = 24 ∧
    Indices.length = 36 ∧
    Indices.length = 12 * 3 ∧
    (Render s).filter isDrawCall = List.replicate 12 (RenderEvent.drawIndexed 36) :=
  ⟨rfl, rfl, rfl, rfl⟩

/-- C8: the pipeline resource layout declares exactly one mutable shader
    variable, the pixel-stage texture g_Texture; the default variable type
    is static, so the vertex-stage constant buffer Constants is static and
    is bound once directly through the pipeline state object. -/
theorem C8_resource_layout_one_mutable_texture :
    ResourceLayoutVariables =
      [⟨SHADER_TYPE.PIXEL, "g_Texture", SHADER_RESOURCE_VARIABLE_TYPE.MUTABLE⟩] ∧
    ResourceLayoutVariables.length = 1 ∧
    DefaultVariableType = SHADER_RESOURCE_VARIABLE_TYPE.STATIC ∧
    StaticVariableBindings = [(SHADER_TYPE.VERTEX, "Constants")] :=
  ⟨rfl, rfl, rfl, rfl⟩

/-- C9: every element of the 36-entry index array is strictly less than 24,
    the length of the vertex array, so every index used by a draw call
    refers to a valid vertex-buffer entry. -/
theorem C9_indices_in_bounds :
    Indices.all (fun i => decide (i < CubeVerts.length)) = true ∧
    CubeVerts.length = 24 := by
  exact ⟨by decide, rfl⟩

/-- C10: Update leaves the members m_WorldViewProjMatrix,
    m_WorldViewProjMatrix13, and m_WorldViewProjMatrix14 unchanged, and the
    trace of Render does not depend on them (Render writes no member at
    all), so they are never used by any draw call. -/
theorem C10_unwritten_matrices_never_used
    (CurrTime ElapsedTime : ℝ) (SrfPreTransform Proj : float4x4)
    (s : Tutorial03_Texturing) (a b c : float4x4) :
    (Update CurrTime ElapsedTime SrfPreTransform Proj s).m_WorldViewProjMatrix =
      s.m_WorldViewProjMatrix ∧
    (Update CurrTime ElapsedTime SrfPreTransform Proj s).m_WorldViewProjMatrix13 =
      s.m_WorldViewProjMatrix13 ∧
    (Update CurrTime ElapsedTime SrfPreTransform Proj s).m_WorldViewProjMatrix14 =
      s.m_WorldViewProjMatrix14 ∧
    Render (setUnwrittenMatrices s a b c) = Render s ∧
    drawnMatrices (setUnwrittenMatrices s a b c) = drawnMatrices s :=
  ⟨rfl, rfl, rfl, rfl, rfl⟩

end Tutorial03
